import Mathlib

/-!
Shallow embedding of `src/bokeh/plotting.py`: the scripting-facing plotting
API (current-context state machine and output-sink dispatch).

Modelling conventions:
* The four process-wide globals `_default_document`, `_default_session`,
  `_default_file`, `_default_notebook` become the fields of `PState`;
  functions that read or mutate them take and return a `PState`.
* External collaborators (Document object graph, Session transport,
  Resources construction, templates, browser launching) are opaque: we
  record the constructor arguments or the calls made on them, exactly as
  the source issues them.
* Python truthiness is modelled explicitly: `None` becomes `Option.none`,
  an empty string is falsy, objects (Session, Resources) are always truthy.
* Side effects (push to session, save to file, browser open) are reified
  as values so theorems can state when they occur.
-/

/-- Constructor arguments of the external `Resources(mode, rootdir, minified)`
collaborator (bokeh.resources). -/
structure Resources where
  mode : String
  rootdir : Option String
  minified : Bool
deriving DecidableEq

/-- The external Session collaborator: the state this module supplies at
construction time, `Session(name=name, root_url=url)`. -/
structure Session where
  name : String
  root_url : String
deriving DecidableEq

/-- The `_default_file` dict built by `output_file`:
`{filename, resources, autosave, title}`. -/
structure FileSink where
  filename : String
  resources : Resources
  autosave : Bool
  title : String
deriving DecidableEq

/-- A renderer on a plot, as discriminated by the accessor helpers:
`isinstance` checks against Axis / Grid / Legend plus the `dimension`
attribute read on Axis and Grid. -/
inductive Renderer where
  | axis (dimension : Nat)
  | grid (dimension : Nat)
  | legend
  | glyph
deriving DecidableEq

/-- The part of the external Plot object the accessor helpers read:
its `renderers` list. -/
structure Plot where
  renderers : List Renderer
deriving DecidableEq

/-- The part of the external Document collaborator this module reads:
`curplot()`, the `_autostore` flag, and an identifying name so distinct
documents can be told apart. -/
structure Document where
  docname : String
  _autostore : Bool
  curplot : Option Plot
deriving DecidableEq

/-- The module-level mutable globals of `bokeh.plotting`. -/
structure PState where
  _default_document : Document
  _default_session : Option Session
  _default_file : Option FileSink
  _default_notebook : Bool
deriving DecidableEq

/-- `curdoc()`: the current document.  The flask per-request override is an
external hosting hook and is out of scope; the fallback global is modelled. -/
def curdoc (st : PState) : Document :=
  st._default_document

/-- `curplot()`: `curdoc().curplot()`. -/
def curplot (st : PState) : Option Plot :=
  (curdoc st).curplot

/-- `cursession()`: the default session or `None`. -/
def cursession (st : PState) : Option Session :=
  st._default_session

/-- `output_file(filename, title, autosave, mode, rootdir)`: replaces the
`_default_file` global with a freshly built dict.  Note the source passes
the literal `mode=\x27inline\x27` and `minified=False` to `Resources`, ignoring its
own `mode` parameter.  The existing-file warning is an external filesystem
effect and is not modelled. -/
def output_file (filename : String) (title : String) (autosave : Bool)
    (mode : String) (rootdir : Option String) (st : PState) : PState :=
  let r : Resources := { mode := "inline", rootdir := rootdir, minified := false }
  let f : FileSink := { filename := filename, resources := r, autosave := autosave, title := title }
  { st with _default_file := some f }

/-- External constant `bokeh.session.DEFAULT_SERVER_URL`; its exact value is
outside this module, an abstract literal stands for it. -/
def DEFAULT_SERVER_URL : String :=
  "http://localhost:5006/"

/-- A call made on a Session collaborator by `output_server`. -/
inductive SessionCall where
  | use_doc (docname : String)
  | pull_document (doc : Document)
deriving DecidableEq

/-- `output_server(docname, session, url, name)`: resolves url/name, lazily
constructs the default session if neither an explicit session nor a default
exists, then calls `session.use_doc(docname)` and
`session.pull_document(curdoc())`.  Returns the new globals, the session the
calls were made on, and those calls in order. -/
def output_server (docname : String) (session : Option Session) (url : String)
    (name : Option String) (st : PState) : PState × Session × List SessionCall :=
  let url := if url == "default" then DEFAULT_SERVER_URL else url
  let name := match name with
    | none => url
    | some n => n
  match session with
  | some s => (st, s, [SessionCall.use_doc docname, SessionCall.pull_document (curdoc st)])
  | none =>
    match st._default_session with
    | some d => (st, d, [SessionCall.use_doc docname, SessionCall.pull_document (curdoc st)])
    | none =>
      let s : Session := { name := name, root_url := url }
      ({ st with _default_session := some s }, s,
       [SessionCall.use_doc docname, SessionCall.pull_document (curdoc st)])

/-- Outcome of `push`: either `session.push_dirty(doc)` was called on some
session with some document, or a warning was emitted and nothing happened. -/
inductive PushOutcome where
  | pushed (s : Session) (d : Document)
  | warned
deriving DecidableEq

/-- `push(session=None, document=None)` — the second, effective definition
(source lines 312-320; it shadows the earlier one at lines 64-69).  It
resolves `session` to `cursession()` and `document` to `curdoc()` when
absent, but then calls `session.push_dirty(curdoc())`: the resolved
`document` local is left unused by the source. -/
def push (session : Option Session) (document : Option Document)
    (st : PState) : PushOutcome :=
  let session := match session with
    | none => cursession st
    | some s => some s
  let _document := match document with
    | none => curdoc st
    | some d => d
  match session with
  | some s => PushOutcome.pushed s (curdoc st)
  | none => PushOutcome.warned

/-- Result of `save(filename=None, resources=None)`.  `wrote` records the
arguments of the final `_file_html(resources, title)` render and the file
opened in "w" (truncate/overwrite) mode; `typeError` is the Python
`TypeError` raised when the source subscripts `_default_file[...]` while
`_default_file` is `None`. -/
inductive SaveResult where
  | warned_no_filename
  | warned_no_resources
  | wrote (filename : String) (resources : Resources) (title : String)
  | typeError
deriving DecidableEq

/-- `save(filename=None, resources=None)` (source lines 283-310).  An
argument that is `None` falls back to the `_default_file` dict when that
exists; `if not filename` treats both `None` and the empty string as
missing; a Resources object is always truthy.  After the two warning
guards the source evaluates `_default_file[\x27title\x27]` unconditionally. -/
def save (filename : Option String) (resources : Option Resources)
    (st : PState) : SaveResult :=
  let filename := match filename, st._default_file with
    | none, some f => some f.filename
    | fn, _ => fn
  let resources := match resources, st._default_file with
    | none, some f => some f.resources
    | r, _ => r
  if (filename.getD "") == "" then
    SaveResult.warned_no_filename
  else
    match resources with
    | none => SaveResult.warned_no_resources
    | some r =>
      match st._default_file with
      | some f => SaveResult.wrote (filename.getD "") r f.title
      | none => SaveResult.typeError

/-- A side effect of the drawing dispatcher: a call to `push()` or to
`save()` (each then performs its own resolution). -/
inductive Effect where
  | push
  | save
deriving DecidableEq

/-- `_document_wrap(func)` applied to a glyph operation (source lines
322-332): invoke the operation on `curdoc()` (the operation returns a value
and mutates the document), then call `push()` if `cursession()` is present
and the document's `_autostore` is true, then call `save()` if
`_default_file` exists with `autosave` true, and return the operation's
result unchanged.  The effect list keeps the source's order: push before
save. -/
def _document_wrap {A : Type} (op : Document → A × Document) (st : PState) :
    A × PState × List Effect :=
  let r := op (curdoc st)
  let st2 : PState := { st with _default_document := r.2 }
  let pushEffs := if (cursession st2).isSome && (curdoc st2)._autostore then
      [Effect.push] else []
  let saveEffs := match st2._default_file with
    | some f => if f.autosave then [Effect.save] else []
    | none => []
  (r.1, st2, pushEffs ++ saveEffs)

/-- The side-effect tail of `gridplot` (source lines 461-464): `push()` if
`_default_session` is set — with no `_autostore` check — then `save()` if
`_default_file` exists with `autosave` true.  The GridPlot construction and
the plot-context children update mutate external collaborators and are not
consulted by any effect condition. -/
def gridplot_effects (st : PState) : List Effect :=
  let pushEffs := if st._default_session.isSome then [Effect.push] else []
  let saveEffs := match st._default_file with
    | some f => if f.autosave then [Effect.save] else []
    | none => []
  pushEffs ++ saveEffs

/-- The strategy `show` executes: exactly one of push-only (notebook with a
session), publish a notebook fragment, push then open a browser (at the
explicit url when given, else at the session object link for the document's
plot context), save then open a browser at the local file path, or nothing. -/
inductive ShowAction where
  | pushOnly
  | publishNotebook
  | pushThenOpen (target : Option String)
  | saveThenOpen (filename : String)
  | noop
deriving DecidableEq

/-- `show(browser=None, new="tab", url=None)` (source lines 211-254), named
`show_` because `show` is a Lean keyword.  The `new` argument is looked up
in the dict `{tab: 2, window: 1}` before any branching (a `KeyError` for
any other literal); `elif filename:` is Python truthiness, so a configured
file sink whose filename is the empty string falls through to the no-op. -/
def show_ (new : String) (url : Option String) (st : PState) :
    Except String ShowAction :=
  let filename : Option String := st._default_file.map (fun f => f.filename)
  let notebook := st._default_notebook
  match ([("tab", 2), ("window", 1)] : List (String × Nat)).lookup new with
  | none => Except.error ("KeyError: " ++ new)
  | some _new_param =>
    if notebook && (cursession st).isSome then
      Except.ok ShowAction.pushOnly
    else if notebook then
      Except.ok ShowAction.publishNotebook
    else if (cursession st).isSome then
      Except.ok (ShowAction.pushThenOpen url)
    else if (filename.getD "") != "" then
      Except.ok (ShowAction.saveThenOpen (filename.getD ""))
    else
      Except.ok ShowAction.noop

/-- The ShowRenderer decision procedure as the spec words it (§4.6): five
mutually exclusive strategies chosen in order on NotebookFlag, session and
FileSinkConfig presence; a present FileSinkConfig yields save-then-open at
its filename. -/
def showSpec (url : Option String) (st : PState) : ShowAction :=
  if st._default_notebook && (cursession st).isSome then
    ShowAction.pushOnly
  else if st._default_notebook then
    ShowAction.publishNotebook
  else if (cursession st).isSome then
    ShowAction.pushThenOpen url
  else
    match st._default_file with
    | some f => ShowAction.saveThenOpen f.filename
    | none => ShowAction.noop

/-- External collaborator `_list_attr_splat` (plotting_helpers): wraps a
list so attribute assignment broadcasts; as a container it is the list of
matched renderers, modelled as that list. -/
def _list_attr_splat (xs : List Renderer) : List Renderer :=
  xs

/-- `xaxis()` (source lines 466-476): `None` when no current plot, else the
splat of renderers that are Axis with `dimension == 0`. -/
def xaxis (st : PState) : Option (List Renderer) :=
  match curplot st with
  | none => none
  | some p =>
    some (_list_attr_splat (p.renderers.filter (fun r =>
      match r with
      | Renderer.axis d => d == 0
      | _ => false)))

/-- `yaxis()` (source lines 478-488): `None` when no current plot, else the
splat of renderers that are Axis with `dimension == 1`. -/
def yaxis (st : PState) : Option (List Renderer) :=
  match curplot st with
  | none => none
  | some p =>
    some (_list_attr_splat (p.renderers.filter (fun r =>
      match r with
      | Renderer.axis d => d == 1
      | _ => false)))

/-- `axis()` (source lines 490-496): `_list_attr_splat(xaxis() + yaxis())`.
When either operand is `None` (no current plot) Python raises a
`TypeError` on the `+`. -/
def axis (st : PState) : Except String (List Renderer) :=
  match xaxis st, yaxis st with
  | some a, some b => Except.ok (_list_attr_splat (a ++ b))
  | _, _ => Except.error "TypeError: unsupported operand type(s) for +: NoneType and NoneType"

/-- `legend()` (source lines 498-508): `None` when no current plot, else the
splat of renderers that are Legend. -/
def legend (st : PState) : Option (List Renderer) :=
  match curplot st with
  | none => none
  | some p =>
    some (_list_attr_splat (p.renderers.filter (fun r =>
      match r with
      | Renderer.legend => true
      | _ => false)))

/-- `xgrid()` (source lines 510-520): `None` when no current plot, else the
splat of renderers that are Grid with `dimension == 0`. -/
def xgrid (st : PState) : Option (List Renderer) :=
  match curplot st with
  | none => none
  | some p =>
    some (_list_attr_splat (p.renderers.filter (fun r =>
      match r with
      | Renderer.grid d => d == 0
      | _ => false)))

/-- `ygrid()` (source lines 522-532): `None` when no current plot, else the
splat of renderers that are Grid with `dimension == 1`. -/
def ygrid (st : PState) : Option (List Renderer) :=
  match curplot st with
  | none => none
  | some p =>
    some (_list_attr_splat (p.renderers.filter (fun r =>
      match r with
      | Renderer.grid d => d == 1
      | _ => false)))

/-- `grid()` (source lines 534-540): `_list_attr_splat(xgrid() + ygrid())`,
raising a `TypeError` when no current plot exists, as `axis()` does. -/
def grid (st : PState) : Except String (List Renderer) :=
  match xgrid st, ygrid st with
  | some a, some b => Except.ok (_list_attr_splat (a ++ b))
  | _, _ => Except.error "TypeError: unsupported operand type(s) for +: NoneType and NoneType"

/-- Python keyword arguments: an association list with distinct keys, in
insertion order (values are opaque strings). -/
abbrev Kwargs := List (String × String)

/-- `kwargs.keys()`. -/
def dictKeys (kw : Kwargs) : List String :=
  kw.map (fun p => p.1)

/-- `kwargs[k] = v`: overwrite in place when the key exists, append
otherwise. -/
def dictSet (kw : Kwargs) (k : String) (v : String) : Kwargs :=
  if (dictKeys kw).contains k then
    kw.map (fun p => bif p.1 == k then (k, v) else p)
  else
    kw ++ [(k, v)]

/-- `kwargs.get(k, dflt)`. -/
def dictGet (kw : Kwargs) (k : String) (dflt : String) : String :=
  (kw.lookup k).getD dflt

/-- `_color_fields = set(["color", "fill_color", "line_color"])`. -/
def _color_fields : List String :=
  ["color", "fill_color", "line_color"]

/-- `_alpha_fields = set(["alpha", "fill_alpha", "line_alpha"])`. -/
def _alpha_fields : List String :=
  ["alpha", "fill_alpha", "line_alpha"]

/-- External collaborator `get_default_color()` (plotting_helpers), an
opaque default value. -/
def get_default_color : String :=
  "default_color"

/-- External collaborator `get_default_alpha()` (plotting_helpers), an
opaque default value. -/
def get_default_alpha : String :=
  "default_alpha"

/-- The marker dispatch table `_marker_types` (source lines 368-387),
mapping each marker name to the glyph operation it dispatches to (the
operation is identified by its glyph-function name). -/
def _marker_types : List (String × String) :=
  [("asterisk", "asterisk"), ("circle", "circle"), ("circle_cross", "circle_cross"),
   ("circle_x", "circle_x"), ("cross", "cross"), ("diamond", "diamond"),
   ("diamond_cross", "diamond_cross"), ("inverted_triangle", "inverted_triangle"),
   ("square", "square"), ("square_x", "square_x"), ("square_cross", "square_cross"),
   ("triangle", "triangle"), ("x", "x"),
   ("*", "asterisk"), ("+", "cross"), ("o", "circle"),
   ("ox", "circle_x"), ("o+", "circle_cross")]

/-- The kwargs transformation performed by `scatter` (source lines 424-434):
set `kwargs["source"]` to the datasource resolved by the external
`_handle_1d_data_args`, then inject the default color unless some key is in
`_color_fields`, then inject the default alpha unless some key is in
`_alpha_fields`. -/
def scatterKwargs (datasource : String) (kwargs : Kwargs) : Kwargs :=
  let k1 := dictSet kwargs "source" datasource
  let k2 := bif (dictKeys k1).any (fun k => _color_fields.contains k) then k1
    else dictSet k1 "color" get_default_color
  let k3 := bif (dictKeys k2).any (fun k => _alpha_fields.contains k) then k2
    else dictSet k2 "alpha" get_default_alpha
  k3

/-- Result of `scatter`: delegation to a glyph operation with the final
kwargs, or the raised `ValueError`. -/
inductive ScatterResult where
  | invoked (glyph : String) (kwargs : Kwargs)
  | valueError (msg : String)
deriving DecidableEq

/-- `scatter(*args, **kwargs)` (source lines 401-438): reads
`kwargs.get("marker", "circle")`, applies the kwargs transformation, raises
a `ValueError` naming the marker when it is not a key of `_marker_types`,
and otherwise calls `_marker_types[markertype](*args, **kwargs)`. -/
def scatter (datasource : String) (kwargs : Kwargs) : ScatterResult :=
  let k1 := dictSet kwargs "source" datasource
  let markertype := dictGet k1 "marker" "circle"
  let k3 := scatterKwargs datasource kwargs
  match _marker_types.lookup markertype with
  | none =>
    ScatterResult.valueError
      ("Invalid marker type \x27" ++ markertype ++
       "\x27. Use markers() to see a list of valid marker types.")
  | some g => ScatterResult.invoked g k3

/-! Concrete fixtures used by counterexamples and witnesses. -/

/-- A document with the autostore flag set. -/
def doc0 : Document :=
  { docname := "doc0", _autostore := true, curplot := none }

/-- A document with the autostore flag cleared. -/
def doc1 : Document :=
  { docname := "doc1", _autostore := false, curplot := none }

/-- A session fixture. -/
def sess0 : Session :=
  { name := "s0", root_url := "http://example.org/" }

/-- A resource-configuration fixture distinct from the one `output_file`
builds. -/
def res0 : Resources :=
  { mode := "cdn", rootdir := none, minified := true }

/-- A file-sink fixture with a non-empty filename and autosave on. -/
def fileSink0 : FileSink :=
  { filename := "plot.html", resources := { mode := "inline", rootdir := none, minified := false },
    autosave := true, title := "Bokeh Plot" }

/-- A pre-existing file-sink fixture, used to observe replacement. -/
def fileSinkPrior : FileSink :=
  { filename := "old.html", resources := res0, autosave := false, title := "Old" }

/-- Fresh-process state: default document, no session, no file sink, no
notebook flag. -/
def st0 : PState :=
  { _default_document := doc0, _default_session := none, _default_file := none,
    _default_notebook := false }

/-- A session is configured but the current document's autostore flag is
false. -/
def stAutostoreOff : PState :=
  { _default_document := doc1, _default_session := some sess0, _default_file := none,
    _default_notebook := false }

/-- A file sink is configured (non-empty filename); nothing else is. -/
def stFileOnly : PState :=
  { _default_document := doc0, _default_session := none, _default_file := some fileSink0,
    _default_notebook := false }

/-- A file sink whose filename is the empty string; nothing else is
configured. -/
def stEmptyFilename : PState :=
  { _default_document := doc0, _default_session := none,
    _default_file := some { filename := "", resources := res0, autosave := true, title := "T" },
    _default_notebook := false }

/-- A pre-existing file sink is configured. -/
def stPriorFile : PState :=
  { _default_document := doc0, _default_session := none, _default_file := some fileSinkPrior,
    _default_notebook := false }

/-- Claim C2, counterexample: with a session configured and the current
document's autostore flag false, `gridplot` nevertheless pushes, so the
wrapped-operation post-condition (push iff session present AND autostore)
does not hold after `gridplot`. -/
theorem gridplot_violates_wrapped_push_condition :
    ¬ (Effect.push ∈ gridplot_effects stAutostoreOff ↔
        ((cursession stAutostoreOff).isSome = true ∧
         (curdoc stAutostoreOff)._autostore = true)) := by
  decide

/-- Claim C2 (amended): after `gridplot`, a save occurs iff a FileSinkConfig
exists with autosave true — exactly the wrapped-operation save condition —
but a push occurs iff a default session is present, with the autostore flag
not consulted. -/
theorem gridplot_push_save_conditions (st : PState) :
    (Effect.push ∈ gridplot_effects st ↔ (cursession st).isSome = true) ∧
    (Effect.save ∈ gridplot_effects st ↔
      (∃ f, st._default_file = some f ∧ f.autosave = true)) ∧
    (Effect.save ∈ gridplot_effects st ↔
      Effect.save ∈ (_document_wrap (fun d => (PUnit.unit, d)) st).2.2) := by
  obtain ⟨d, ses, fl, nb⟩ := st
  cases ses <;> cases fl <;>
    simp [gridplot_effects, _document_wrap, cursession, curdoc] <;>
    rename_i f <;> cases hf : f.autosave <;> simp [hf]

/-- Claim C3: the effective `push` resolves a missing session to the default
and warns and no-ops when none resolves, but it calls
`session.push_dirty(curdoc())`, ignoring the `document` it just resolved:
pushing an explicitly supplied document `doc1` distinct from the current
document still transmits the current document. -/
theorem push_pushes_curdoc_not_document :
    push (some sess0) (some doc1) st0 = PushOutcome.pushed sess0 (curdoc st0) ∧
    curdoc st0 ≠ doc1 ∧
    push none none st0 = PushOutcome.warned ∧
    push none none stAutostoreOff =
      PushOutcome.pushed sess0 (curdoc stAutostoreOff) := by
  decide

/-- Claim C4: `output_file` called with mode "cdn" stores a resource
configuration built with mode "inline" (the source hardcodes the mode it
passes to `Resources`), while it does replace any prior FileSinkConfig
wholesale. -/
theorem output_file_builds_inline_resources :
    ((output_file "plot.html" "Bokeh Plot" true "cdn" none st0)._default_file).map
        (fun f => f.resources.mode) = some "inline" ∧
    (output_file "plot.html" "Bokeh Plot" true "cdn" none stPriorFile)._default_file =
      some { filename := "plot.html",
             resources := { mode := "inline", rootdir := none, minified := false },
             autosave := true, title := "Bokeh Plot" } ∧
    "inline" ≠ "cdn" := by
  decide

/-- A plot fixture carrying one renderer of each discriminated shape. -/
def plot0 : Plot :=
  { renderers := [Renderer.axis 0, Renderer.axis 1, Renderer.grid 0,
                  Renderer.grid 1, Renderer.legend, Renderer.glyph] }

/-- State whose current document has a current plot, `plot0`. -/
def stWithPlot : PState :=
  { _default_document := { docname := "doc0", _autostore := true, curplot := some plot0 },
    _default_session := none, _default_file := none, _default_notebook := false }

/-- Claim C5: with no current plot, the five leaf helpers return absence,
but `axis()` and `grid()` raise a `TypeError` (the source adds two `None`
values); with a current plot, each helper filters by renderer kind and
dimension. -/
theorem accessors_absent_plot_and_filtering :
    xaxis st0 = none ∧ yaxis st0 = none ∧ legend st0 = none ∧
    xgrid st0 = none ∧ ygrid st0 = none ∧
    axis st0 =
      Except.error "TypeError: unsupported operand type(s) for +: NoneType and NoneType" ∧
    grid st0 =
      Except.error "TypeError: unsupported operand type(s) for +: NoneType and NoneType" ∧
    xaxis stWithPlot = some [Renderer.axis 0] ∧
    yaxis stWithPlot = some [Renderer.axis 1] ∧
    axis stWithPlot = Except.ok [Renderer.axis 0, Renderer.axis 1] ∧
    legend stWithPlot = some [Renderer.legend] ∧
    xgrid stWithPlot = some [Renderer.grid 0] ∧
    ygrid stWithPlot = some [Renderer.grid 1] ∧
    grid stWithPlot = Except.ok [Renderer.grid 0, Renderer.grid 1] :=
  ⟨rfl, rfl, rfl, rfl, rfl, rfl, rfl, rfl, rfl, rfl, rfl, rfl, rfl, rfl⟩

/-- Claim C6: missing `save` arguments do fall back to the FileSinkConfig
and missing filename or resources warn and no-op, but calling `save` with
an explicit filename and explicit resources while no FileSinkConfig exists
raises a `TypeError` (the source subscripts the absent config for the
title) instead of rendering and writing. -/
theorem save_explicit_args_without_config_raises :
    save (some "out.html") (some res0) st0 = SaveResult.typeError ∧
    save none none st0 = SaveResult.warned_no_filename ∧
    save (some "out.html") none st0 = SaveResult.warned_no_resources ∧
    save none none stPriorFile = SaveResult.wrote "old.html" res0 "Old" ∧
    save (some "other.html") none stPriorFile = SaveResult.wrote "other.html" res0 "Old" := by
  decide

/-- Claim C9: a wrapped glyph operation run with no session and no file
sink performs no push and no save, and the wrapper returns the underlying
operation's result unchanged. -/
theorem document_wrap_pass_through {A : Type} (op : Document → A × Document)
    (st : PState) (hs : cursession st = none) (hf : st._default_file = none) :
    (_document_wrap op st).2.2 = [] ∧
    (_document_wrap op st).1 = (op (curdoc st)).1 := by
  unfold _document_wrap
  simp [cursession] at hs
  simp [cursession, hs, hf]

/-- Witness for claim C9 at a concrete operation and the fresh-process
state. -/
theorem document_wrap_pass_through_witness :
    cursession st0 = none ∧ st0._default_file = none ∧
    ((_document_wrap (fun d => ((7 : Nat), d)) st0).2.2 = [] ∧
     (_document_wrap (fun d => ((7 : Nat), d)) st0).1 =
       ((fun d => ((7 : Nat), d)) (curdoc st0)).1) :=
  ⟨rfl, rfl, document_wrap_pass_through (fun d => ((7 : Nat), d)) st0 rfl rfl⟩

/-- Claim C10: once a default session exists, an `output_server` call with
no explicit session leaves the whole state — in particular the default
session with its name and root_url — unchanged, whatever `url` and `name`
are passed, and performs exactly `use_doc(docname)` then
`pull_document(curdoc())` on that existing session. -/
theorem output_server_keeps_default_session (docname : String) (url : String)
    (name : Option String) (st : PState) (d : Session)
    (hd : st._default_session = some d) :
    (output_server docname none url name st).1 = st ∧
    (output_server docname none url name st).2.1 = d ∧
    (output_server docname none url name st).2.2 =
      [SessionCall.use_doc docname, SessionCall.pull_document (curdoc st)] := by
  unfold output_server
  simp [hd]

/-- State after a first `output_server` call on a fresh process: the call
creates the default session from its own url/name arguments. -/
def stAfterFirstServer : PState :=
  (output_server "d1" none "default" none st0).1

/-- Witness for claim C10: after a first creating call, a second call with
different url and name arguments changes nothing and only issues the two
session calls on the existing session. -/
theorem output_server_keeps_default_session_witness :
    stAfterFirstServer._default_session =
      some { name := DEFAULT_SERVER_URL, root_url := DEFAULT_SERVER_URL } ∧
    ((output_server "d2" none "http://elsewhere/" (some "other") stAfterFirstServer).1 =
        stAfterFirstServer ∧
     (output_server "d2" none "http://elsewhere/" (some "other") stAfterFirstServer).2.1 =
        { name := DEFAULT_SERVER_URL, root_url := DEFAULT_SERVER_URL } ∧
     (output_server "d2" none "http://elsewhere/" (some "other") stAfterFirstServer).2.2 =
        [SessionCall.use_doc "d2",
         SessionCall.pull_document (curdoc stAfterFirstServer)]) :=
  ⟨rfl, output_server_keeps_default_session "d2" "http://elsewhere/" (some "other")
    stAfterFirstServer { name := DEFAULT_SERVER_URL, root_url := DEFAULT_SERVER_URL } rfl⟩

/-- Claim C1, counterexample: with only a FileSinkConfig configured but its
filename the empty string, `show` no-ops (Python truthiness of the
filename) where the claimed decision table selects save-then-open. -/
theorem show_decision_table_fails_on_empty_filename :
    show_ "tab" none stEmptyFilename ≠ Except.ok (showSpec none stEmptyFilename) := by
  have h1 : show_ "tab" none stEmptyFilename = Except.ok ShowAction.noop := rfl
  have h2 : showSpec none stEmptyFilename = ShowAction.saveThenOpen "" := rfl
  rw [h1, h2]
  simp

/-- Claim C1 (amended): for every configuration of notebook flag, default
session and FileSinkConfig whose filename is non-empty, `show` (with a
valid `new` mode) selects exactly the strategy of the five-way decision
table, in order: notebook with session pushes only — no browser action, no
notebook fragment; notebook alone publishes the fragment; session alone
pushes then opens a browser; a file sink alone saves then opens a browser
at the file path; otherwise nothing happens. -/
theorem show_strategy_selection (new : String) (url : Option String) (st : PState)
    (hnew : new = "tab" ∨ new = "window")
    (hfile : st._default_file.all (fun f => f.filename != "") = true) :
    show_ new url st = Except.ok (showSpec url st) := by
  obtain ⟨d, ses, fl, nb⟩ := st
  rcases hnew with rfl | rfl <;> cases nb <;> cases ses <;> cases fl <;> try rfl
  all_goals
    rename_i f
    have hb : (f.filename != "") = true := by simpa [Option.all] using hfile
    simp [show_, showSpec, cursession, hb]
    try rfl

/-- Witness for claim C1 at the file-only configuration with a non-empty
filename. -/
theorem show_strategy_selection_witness :
    ("tab" = "tab" ∨ "tab" = "window") ∧
    show_ "tab" none stFileOnly = Except.ok (showSpec none stFileOnly) :=
  ⟨Or.inl rfl,
   show_strategy_selection "tab" none stFileOnly (Or.inl rfl) (by decide)⟩

/-- Overwriting key `k0` in place leaves the lookup of a different key
unchanged. -/
theorem lookup_map_overwrite (k0 v k : String) (h : (k == k0) = false) :
    ∀ t : Kwargs,
      (t.map (fun p => bif p.1 == k0 then (k0, v) else p)).lookup k = t.lookup k := by
  intro t
  induction t with
  | nil => rfl
  | cons p t ih =>
    simp only [List.map_cons, List.lookup]
    cases hp : (p.1 == k0) with
    | true =>
      have hp2 : p.1 = k0 := by simpa using hp
      have hk : (k == p.1) = false := by
        rw [hp2]
        exact h
      simp [hp, hk, h, ih]
    | false =>
      cases hk : (k == p.1) with
      | true => simp [hp, hk]
      | false => simp [hp, hk, ih]

/-- Appending a binding for key `k0` leaves the lookup of a different key
unchanged. -/
theorem lookup_append_single (k0 v k : String) (h : (k == k0) = false) :
    ∀ t : Kwargs, (t ++ [(k0, v)]).lookup k = t.lookup k := by
  intro t
  induction t with
  | nil => simp [List.lookup, h]
  | cons p t ih =>
    simp only [List.cons_append, List.lookup]
    cases hk : (k == p.1) with
    | true => simp [hk]
    | false => simp [hk, ih]

/-- Setting one key with `dictSet` leaves the lookup of every other key
unchanged. -/
theorem lookup_dictSet_of_ne (kw : Kwargs) (k0 v k : String) (h : (k == k0) = false) :
    (dictSet kw k0 v).lookup k = kw.lookup k := by
  unfold dictSet
  by_cases hc : (dictKeys kw).contains k0
  · simp only [if_pos hc]
    exact lookup_map_overwrite k0 v k h kw
  · simp only [if_neg hc]
    exact lookup_append_single k0 v k h kw

/-- The marker keyword is unaffected by the `kwargs["source"]` update. -/
theorem dictGet_marker_after_source (ds : String) (kw : Kwargs) :
    dictGet (dictSet kw "source" ds) "marker" "circle" =
      dictGet kw "marker" "circle" := by
  unfold dictGet
  rw [lookup_dictSet_of_ne kw "source" ds "marker" (by decide)]

/-- Claim C8: for a marker keyword (default "circle") that is a key of the
dispatch table — which maps the shorthand aliases to their glyph
operations — `scatter` delegates to the corresponding glyph operation with
the transformed kwargs; for any other marker it raises a `ValueError`
whose message names that marker. -/
theorem scatter_marker_dispatch (ds : String) (kw : Kwargs) :
    (∀ g, _marker_types.lookup (dictGet kw "marker" "circle") = some g →
        scatter ds kw = ScatterResult.invoked g (scatterKwargs ds kw)) ∧
    (_marker_types.lookup (dictGet kw "marker" "circle") = none →
        scatter ds kw = ScatterResult.valueError
          ("Invalid marker type \x27" ++ dictGet kw "marker" "circle" ++
           "\x27. Use markers() to see a list of valid marker types.")) ∧
    _marker_types.lookup "*" = some "asterisk" ∧
    _marker_types.lookup "+" = some "cross" ∧
    _marker_types.lookup "o" = some "circle" ∧
    _marker_types.lookup "ox" = some "circle_x" ∧
    _marker_types.lookup "o+" = some "circle_cross" := by
  refine ⟨?_, ?_, by decide, by decide, by decide, by decide, by decide⟩
  · intro g hg
    simp only [scatter]
    rw [dictGet_marker_after_source, hg]
  · intro hg
    simp only [scatter]
    rw [dictGet_marker_after_source, hg]

/-- Witness for claim C8: an empty kwargs defaults the marker to "circle"
and dispatches to the circle glyph; marker "bogus" raises the `ValueError`
naming "bogus". -/
theorem scatter_marker_dispatch_witness :
    scatter "src" [] = ScatterResult.invoked "circle" (scatterKwargs "src" []) ∧
    scatter "src" [("marker", "bogus")] = ScatterResult.valueError
      ("Invalid marker type \x27" ++ "bogus" ++
       "\x27. Use markers() to see a list of valid marker types.") := by
  constructor
  · exact (scatter_marker_dispatch "src" []).1 "circle" (by decide)
  · have h := (scatter_marker_dispatch "src" [("marker", "bogus")]).2.1 (by decide)
    rw [show dictGet [("marker", "bogus")] "marker" "circle" = "bogus" from rfl] at h
    exact h

/-- `dictKeys` distributes over append. -/
theorem dictKeys_append (a b : Kwargs) :
    dictKeys (a ++ b) = dictKeys a ++ dictKeys b := by
  simp [dictKeys]

/-- Overwriting a key in place does not change the key list. -/
theorem dictKeys_map_overwrite (k0 v : String) (t : Kwargs) :
    dictKeys (t.map (fun p => bif p.1 == k0 then (k0, v) else p)) = dictKeys t := by
  induction t with
  | nil => rfl
  | cons p t ih =>
    simp only [dictKeys, List.map_cons] at ih ⊢
    rw [ih]
    cases hp : (p.1 == k0) with
    | true =>
      have hp2 : p.1 = k0 := by simpa using hp
      simp [hp, hp2]
    | false => simp [hp]

/-- The keys after `dictSet` are the old keys plus possibly the new key. -/
theorem mem_dictKeys_dictSet (kw : Kwargs) (k v a : String) :
    a ∈ dictKeys (dictSet kw k v) ↔ (a ∈ dictKeys kw ∨ a = k) := by
  unfold dictSet
  by_cases hc : (dictKeys kw).contains k
  · rw [if_pos hc, dictKeys_map_overwrite]
    constructor
    · exact fun h => Or.inl h
    · rintro (h | rfl)
      · exact h
      · simpa using hc
  · rw [if_neg hc, dictKeys_append]
    simp [dictKeys]

/-- Whether any key hits a field set is unchanged by `dictSet` with a key
outside that field set. -/
theorem any_dictKeys_dictSet (fields : List String) (kw : Kwargs) (k v : String)
    (h : fields.contains k = false) :
    (dictKeys (dictSet kw k v)).any (fun x => fields.contains x) =
      (dictKeys kw).any (fun x => fields.contains x) := by
  unfold dictSet
  by_cases hc : (dictKeys kw).contains k
  · rw [if_pos hc, dictKeys_map_overwrite]
  · rw [if_neg hc, dictKeys_append]
    simp [dictKeys, List.any_append, h]
    intro hk
    exact absurd hk (by simpa using h)

/-- A three-element field set is hit by the keys exactly when one of the
three names occurs among them. -/
theorem any_fields3_iff (f1 f2 f3 : String) (ks : List String) :
    (ks.any (fun k => ([f1, f2, f3] : List String).contains k)) = true ↔
      (f1 ∈ ks ∨ f2 ∈ ks ∨ f3 ∈ ks) := by
  rw [List.any_eq_true]
  constructor
  · rintro ⟨k, hk, hc⟩
    have hm : k ∈ ([f1, f2, f3] : List String) := by simpa using hc
    simp only [List.mem_cons, List.not_mem_nil, or_false] at hm
    rcases hm with rfl | rfl | rfl
    · exact Or.inl hk
    · exact Or.inr (Or.inl hk)
    · exact Or.inr (Or.inr hk)
  · rintro (h | h | h)
    · exact ⟨f1, h, by simp⟩
    · exact ⟨f2, h, by simp⟩
    · exact ⟨f3, h, by simp⟩

/-- A key of the field set is absent from the keys when no key hits the
field set. -/
theorem not_mem_of_any_fields_false (fields : List String) (ks : List String)
    (h : ks.any (fun x => fields.contains x) = false) (a : String)
    (ha : fields.contains a = true) : a ∉ ks := by
  intro hmem
  have ht : ks.any (fun x => fields.contains x) = true :=
    List.any_eq_true.mpr ⟨a, hmem, ha⟩
  rw [h] at ht
  cases ht

/-- `dictSet` of an absent key appends the binding. -/
theorem dictSet_eq_append (kw : Kwargs) (k v : String)
    (h : (dictKeys kw).contains k = false) :
    dictSet kw k v = kw ++ [(k, v)] := by
  unfold dictSet
  rw [if_neg (by rw [h]; simp)]

/-- Specialization of the three-field lemma to the color field set. -/
theorem any_color_fields_iff (ks : List String) :
    (ks.any (fun x => _color_fields.contains x)) = true ↔
      ("color" ∈ ks ∨ "fill_color" ∈ ks ∨ "line_color" ∈ ks) := by
  unfold _color_fields
  exact any_fields3_iff "color" "fill_color" "line_color" ks

/-- Specialization of the three-field lemma to the alpha field set. -/
theorem any_alpha_fields_iff (ks : List String) :
    (ks.any (fun x => _alpha_fields.contains x)) = true ↔
      ("alpha" ∈ ks ∨ "fill_alpha" ∈ ks ∨ "line_alpha" ∈ ks) := by
  unfold _alpha_fields
  exact any_fields3_iff "alpha" "fill_alpha" "line_alpha" ks

/-- Claim C7: `scatter` injects the default color exactly when the caller
supplied none of the keyword names color, fill_color, line_color, and the
default alpha exactly when the caller supplied none of alpha, fill_alpha,
line_alpha; one group's member suppresses only its own group's default. -/
theorem scatter_default_injection (ds : String) (kw : Kwargs) :
    scatterKwargs ds kw =
      dictSet kw "source" ds ++
      (if ("color" ∈ dictKeys kw ∨ "fill_color" ∈ dictKeys kw ∨ "line_color" ∈ dictKeys kw)
        then [] else [("color", get_default_color)]) ++
      (if ("alpha" ∈ dictKeys kw ∨ "fill_alpha" ∈ dictKeys kw ∨ "line_alpha" ∈ dictKeys kw)
        then [] else [("alpha", get_default_alpha)]) := by
  simp only [scatterKwargs]
  have hCbr := any_dictKeys_dictSet _color_fields kw "source" ds (by decide)
  have hAbr := any_dictKeys_dictSet _alpha_fields kw "source" ds (by decide)
  cases hCb : (dictKeys kw).any (fun x => _color_fields.contains x) with
  | true =>
    have hC : ("color" ∈ dictKeys kw ∨ "fill_color" ∈ dictKeys kw ∨ "line_color" ∈ dictKeys kw) :=
      (any_color_fields_iff (dictKeys kw)).mp hCb
    rw [if_pos hC]
    simp only [hCbr, hCb, cond_true]
    cases hAb : (dictKeys kw).any (fun x => _alpha_fields.contains x) with
    | true =>
      have hA : ("alpha" ∈ dictKeys kw ∨ "fill_alpha" ∈ dictKeys kw ∨ "line_alpha" ∈ dictKeys kw) :=
        (any_alpha_fields_iff (dictKeys kw)).mp hAb
      rw [if_pos hA]
      simp only [hAbr, hAb, cond_true]
      simp
    | false =>
      have hA2 : ¬ ("alpha" ∈ dictKeys kw ∨ "fill_alpha" ∈ dictKeys kw ∨ "line_alpha" ∈ dictKeys kw) := by
        intro h
        rw [(any_alpha_fields_iff (dictKeys kw)).mpr h] at hAb
        cases hAb
      rw [if_neg hA2]
      simp only [hAbr, hAb, cond_false]
      have hnm : "alpha" ∉ dictKeys (dictSet kw "source" ds) := by
        rw [mem_dictKeys_dictSet]
        rintro (h | h)
        · exact not_mem_of_any_fields_false _alpha_fields (dictKeys kw) hAb "alpha" (by decide) h
        · exact absurd h (by decide)
      have hcont : (dictKeys (dictSet kw "source" ds)).contains "alpha" = false := by
        simpa using hnm
      rw [dictSet_eq_append _ _ _ hcont]
      simp
  | false =>
    have hC2 : ¬ ("color" ∈ dictKeys kw ∨ "fill_color" ∈ dictKeys kw ∨ "line_color" ∈ dictKeys kw) := by
      intro h
      rw [(any_color_fields_iff (dictKeys kw)).mpr h] at hCb
      cases hCb
    rw [if_neg hC2]
    simp only [hCbr, hCb, cond_false]
    have hnmc : "color" ∉ dictKeys (dictSet kw "source" ds) := by
      rw [mem_dictKeys_dictSet]
      rintro (h | h)
      · exact not_mem_of_any_fields_false _color_fields (dictKeys kw) hCb "color" (by decide) h
      · exact absurd h (by decide)
    have hcontc : (dictKeys (dictSet kw "source" ds)).contains "color" = false := by
      simpa using hnmc
    rw [dictSet_eq_append _ _ _ hcontc]
    have hA3 : (dictKeys (dictSet kw "source" ds ++ [("color", get_default_color)])).any
        (fun x => _alpha_fields.contains x) =
        (dictKeys kw).any (fun x => _alpha_fields.contains x) := by
      rw [dictKeys_append, List.any_append]
      have h1 : (dictKeys [("color", get_default_color)]).any
          (fun x => _alpha_fields.contains x) = false := by
        decide
      rw [h1, Bool.or_false]
      exact hAbr
    cases hAb : (dictKeys kw).any (fun x => _alpha_fields.contains x) with
    | true =>
      have hA : ("alpha" ∈ dictKeys kw ∨ "fill_alpha" ∈ dictKeys kw ∨ "line_alpha" ∈ dictKeys kw) :=
        (any_alpha_fields_iff (dictKeys kw)).mp hAb
      rw [if_pos hA]
      simp only [hA3, hAb, cond_true]
      simp
    | false =>
      have hA2 : ¬ ("alpha" ∈ dictKeys kw ∨ "fill_alpha" ∈ dictKeys kw ∨ "line_alpha" ∈ dictKeys kw) := by
        intro h
        rw [(any_alpha_fields_iff (dictKeys kw)).mpr h] at hAb
        cases hAb
      rw [if_neg hA2]
      simp only [hA3, hAb, cond_false]
      have hnma : "alpha" ∉ dictKeys (dictSet kw "source" ds ++ [("color", get_default_color)]) := by
        rw [dictKeys_append, List.mem_append]
        rintro (h | h)
        · revert h
          rw [mem_dictKeys_dictSet]
          rintro (h2 | h2)
          · exact not_mem_of_any_fields_false _alpha_fields (dictKeys kw) hAb "alpha" (by decide) h2
          · exact absurd h2 (by decide)
        · simp [dictKeys] at h
      have hconta : (dictKeys (dictSet kw "source" ds ++ [("color", get_default_color)])).contains
          "alpha" = false := by
        simpa using hnma
      rw [dictSet_eq_append _ _ _ hconta]
